import Mathlib

/-!
Shallow embedding of `src/tools/browser_controller.py` (a Flask HTTP server
driving one Selenium Firefox session).

JSON bodies are modelled by `JVal`; Python exceptions raised by the Selenium
layer by `PyExc` (with `NoSuchElementException <: WebDriverException <:
Exception` reflected in the predicates `isNoSuch`/`isWDE`); an element handle
by `Element`, whose capability calls are fallible (`Except PyExc`); the
driver handle by `Browser`. The module-global `browser` variable is an
`Option Browser` threaded through every handler; each HTTP handler becomes a
function returning an `HResult`: either a normal Flask response (with the new
global state and the list of `time.sleep` durations performed), or an
uncaught Python exception escaping the handler (`HResult.exc`).
-/

/-- A JSON value (also used for the decoded request body, with `null`
standing for Python `None`). -/
inductive JVal where
  | null
  | str (s : String)
  | num (n : Nat)
  | bool (b : Bool)
  | arr (l : List JVal)
  | obj (l : List (String × JVal))

/-- Field lookup in a JSON object (`none` on non-objects). -/
def jfield (v : JVal) (k : String) : Option JVal :=
  match v with
  | .obj l => l.lookup k
  | _ => none

/-- Python truthiness of a decoded JSON value (`if not url: ...`). -/
def pyTruthy : JVal → Bool
  | .null => false
  | .str s => !(s == "")
  | .num n => !(n == 0)
  | .bool b => b
  | .arr l => !l.isEmpty
  | .obj l => !l.isEmpty

/-- Truthiness of `element.get_attribute(...)`: `None` and `""` are falsy. -/
def truthyOptStr : Option String → Bool
  | none => false
  | some s => !(s == "")

/-- `get_attribute` results placed into a JSON body (`None` becomes `null`). -/
def optJ : Option String → JVal
  | some s => .str s
  | none => .null

/-- The uniform failure body `{'status': 'error', 'message': m}`. -/
def errBody (m : String) : JVal :=
  .obj [("status", .str "error"), ("message", .str m)]

/-- Exceptions the Selenium layer can raise, keeping the class hierarchy
used by the source's `except` clauses. -/
inductive PyExc where
  | noSuchElement (m : String)
  | webDriver (m : String)
  | otherExc (m : String)

/-- `str(e)`. -/
def PyExc.msg : PyExc → String
  | .noSuchElement m => m
  | .webDriver m => m
  | .otherExc m => m

/-- Membership in `NoSuchElementException`. -/
def PyExc.isNoSuch : PyExc → Bool
  | .noSuchElement _ => true
  | _ => false

/-- Membership in `WebDriverException` (of which `NoSuchElementException`
is a subclass). -/
def PyExc.isWDE : PyExc → Bool
  | .noSuchElement _ => true
  | .webDriver _ => true
  | .otherExc _ => false

/-- The `selenium.webdriver.common.by.By` locator strategies. -/
inductive By where
  | CSS_SELECTOR
  | XPATH
  | ID
  | NAME
  | LINK_TEXT
  | PARTIAL_LINK_TEXT
  | TAG_NAME
  | CLASS_NAME
deriving DecidableEq

/-- A DOM element handle; every capability call may raise. `option_texts`
models the comprehension `[opt.text for opt in elem.find_elements(By.TAG_NAME,
'option')]` run on a `select` element. -/
structure Element where
  get_attribute : String → Except PyExc (Option String)
  text : Except PyExc String
  is_displayed : Except PyExc Bool
  click : Except PyExc Unit
  clear : Except PyExc Unit
  send_keys : JVal → Except PyExc Unit
  option_texts : Except PyExc (List String)

/-- The Selenium driver handle and its capability surface as used by the
controller. -/
structure Browser where
  current_url : Except PyExc String
  title : Except PyExc String
  get_window_size : Except PyExc JVal
  quit : Except PyExc Unit
  get : JVal → Except PyExc Unit
  back : Except PyExc Unit
  forward : Except PyExc Unit
  refresh : Except PyExc Unit
  get_screenshot_as_png : Except PyExc (List Nat)
  execute_script : JVal → Except PyExc JVal
  find_elements : By → String → Except PyExc (List Element)
  find_element : By → JVal → Except PyExc Element

/-- The environment: what `webdriver.Firefox(service=..., options=...)`
produces (or the launch failure it raises). -/
structure Env where
  newBrowser : Except PyExc Browser

/-- A Flask response: HTTP status code and JSON body. -/
structure HttpResp where
  code : Nat
  body : JVal

/-- Outcome of one HTTP handler call: a returned response (with the new
value of the global `browser` and the `time.sleep` durations performed,
in seconds), or an exception escaping the handler uncaught. -/
inductive HResult where
  | ok (st : Option Browser) (slept : List ℚ) (resp : HttpResp)
  | exc (st : Option Browser) (e : PyExc)

/-- The value of the global `browser` after the handler ran. -/
def HResult.state : HResult → Option Browser
  | .ok st _ _ => st
  | .exc st _ => st

/-- The sleeps the handler performed. -/
def HResult.sleeps : HResult → List ℚ
  | .ok _ s _ => s
  | .exc _ _ => []

/-- Whether an exception escaped the handler. -/
def HResult.isExc : HResult → Bool
  | .exc _ _ => true
  | .ok _ _ _ => false

/-- The HTTP status code of the response, when one was returned. -/
def HResult.respCode : HResult → Option Nat
  | .ok _ _ r => some r.code
  | .exc _ _ => none

/-- A field of the JSON response body, when a response was returned. -/
def HResult.field : HResult → String → Option JVal
  | .ok _ _ r, k => jfield r.body k
  | .exc _ _, _ => none

/-- `data.get(key, dflt)` on the decoded request body: Python raises
`AttributeError` when the body is not a dict. -/
def py_get (data : JVal) (key : String) (dflt : JVal) : Except PyExc JVal :=
  match data with
  | .obj l => .ok ((l.lookup key).getD dflt)
  | _ => .error (.otherExc "AttributeError")

/-- `get_browser()`: return the cached handle, creating one if absent.
A launch failure leaves the global unchanged and re-raises. -/
def get_browser (env : Env) (st : Option Browser) :
    Except PyExc (Browser × Option Browser) :=
  match st with
  | some b => .ok (b, some b)
  | none =>
    match env.newBrowser with
    | .ok b => .ok (b, some b)
    | .error e => .error e

/-- `GET /status`: `{'status': 'stopped'}` when no handle is cached;
otherwise read `current_url`, `title` and `get_window_size()` inside a
`try` that catches only `WebDriverException`, in which case the global is
cleared and a dead-session body is returned. -/
def status (st : Option Browser) : HResult :=
  match st with
  | none => .ok none [] ⟨200, .obj [("status", .str "stopped"), ("browser", .null)]⟩
  | some b =>
    match b.current_url with
    | .error e =>
      if e.isWDE then
        .ok none [] ⟨200, .obj [("status", .str "error"),
          ("message", .str "Browser session died")]⟩
      else .exc (some b) e
    | .ok current_url =>
      match b.title with
      | .error e =>
        if e.isWDE then
          .ok none [] ⟨200, .obj [("status", .str "error"),
            ("message", .str "Browser session died")]⟩
        else .exc (some b) e
      | .ok title =>
        match b.get_window_size with
        | .error e =>
          if e.isWDE then
            .ok none [] ⟨200, .obj [("status", .str "error"),
              ("message", .str "Browser session died")]⟩
          else .exc (some b) e
        | .ok ws =>
          .ok (some b) [] ⟨200, .obj [("status", .str "running"),
            ("url", .str current_url), ("title", .str title),
            ("window_size", ws)]⟩

/-- `POST /start`: `get_browser()` inside a catch-all `try`. -/
def start (env : Env) (st : Option Browser) : HResult :=
  match get_browser env st with
  | .ok (_, st') =>
    .ok st' [] ⟨200, .obj [("status", .str "success"),
      ("message", .str "Browser started")]⟩
  | .error e => .ok st [] ⟨500, errBody e.msg⟩

/-- `POST /stop`: note there is no `try` around `browser.quit()`, so a
fault raised by `quit` escapes the handler. -/
def stop (st : Option Browser) : HResult :=
  match st with
  | some b =>
    match b.quit with
    | .ok _ =>
      .ok none [] ⟨200, .obj [("status", .str "success"),
        ("message", .str "Browser stopped")]⟩
    | .error e => .exc (some b) e
  | none =>
    .ok none [] ⟨200, .obj [("status", .str "success"),
      ("message", .str "Browser was not running")]⟩

/-- `POST /goto?wait=`: `data.get('url')` runs before the `try` (so a
non-dict body raises out of the handler); an empty url gives a 400; the
navigation, the sleep and the final reads sit inside a catch-all `try`. -/
def goto (env : Env) (st : Option Browser) (body : JVal) (w : Option ℚ) :
    HResult :=
  match py_get body "url" .null with
  | .error e => .exc st e
  | .ok url =>
    let wait := w.getD 2
    if pyTruthy url then
      match get_browser env st with
      | .error e => .ok st [] ⟨500, errBody e.msg⟩
      | .ok (b, st') =>
        match b.get url with
        | .error e => .ok st' [] ⟨500, errBody e.msg⟩
        | .ok _ =>
          match b.current_url with
          | .error e => .ok st' [wait] ⟨500, errBody e.msg⟩
          | .ok current_url =>
            match b.title with
            | .error e => .ok st' [wait] ⟨500, errBody e.msg⟩
            | .ok title =>
              .ok st' [wait] ⟨200, .obj [("status", .str "success"),
                ("url", .str current_url), ("title", .str title)]⟩
    else .ok st [] ⟨400, errBody "URL required"⟩

/-- The base64 alphabet character for a 6-bit value. -/
def b64Char (n : Nat) : Char :=
  "ABCDEFGHIJKLMNOPQRSTUVWXYZabcdefghijklmnopqrstuvwxyz0123456789+/".toList.getD n 'A'

/-- `base64.b64encode` on a byte string. -/
def base64Encode : List Nat → String
  | [] => ""
  | [a] => String.mk [b64Char (a / 4), b64Char (a % 4 * 16)] ++ "=="
  | [a, b] => String.mk [b64Char (a / 4), b64Char (a % 4 * 16 + b / 16),
      b64Char (b % 16 * 4)] ++ "="
  | a :: b :: c :: rest =>
    String.mk [b64Char (a / 4), b64Char (a % 4 * 16 + b / 16),
      b64Char (b % 16 * 4 + c / 64), b64Char (c % 64)] ++ base64Encode rest

/-- `GET /screenshot`: capture a PNG and return it as a base64 data URI,
everything inside a catch-all `try`. -/
def screenshot (env : Env) (st : Option Browser) : HResult :=
  match get_browser env st with
  | .error e => .ok st [] ⟨500, errBody e.msg⟩
  | .ok (b, st') =>
    match b.get_screenshot_as_png with
    | .error e => .ok st' [] ⟨500, errBody e.msg⟩
    | .ok png =>
      match b.current_url with
      | .error e => .ok st' [] ⟨500, errBody e.msg⟩
      | .ok current_url =>
        match b.title with
        | .error e => .ok st' [] ⟨500, errBody e.msg⟩
        | .ok title =>
          .ok st' [] ⟨200, .obj [("status", .str "success"),
            ("screenshot", .str ("data:image/png;base64," ++ base64Encode png)),
            ("url", .str current_url), ("title", .str title)]⟩

/-- One iteration of the `/elements/links` loop body: the attribute reads
inside the per-element `try`, then `if href:`. -/
def linkEntry (i : Nat) (l : Element) : Option JVal :=
  match l.get_attribute "href" with
  | .error _ => none
  | .ok href =>
    match l.text with
    | .error _ => none
    | .ok text =>
      match l.is_displayed with
      | .error _ => none
      | .ok visible =>
        match href with
        | none => none
        | some h =>
          if h == "" then none
          else
            some (.obj [("index", .num i), ("href", .str h),
              ("text", .str text.trim), ("visible", .bool visible)])

/-- `for i, x in enumerate(xs)` where a `none` result of the loop body means
the element was dropped by its per-element `except: pass`. -/
def enumMapDrop (f : Nat → Element → Option JVal) : Nat → List Element → List JVal
  | _, [] => []
  | i, e :: rest =>
    match f i e with
    | some x => x :: enumMapDrop f (i + 1) rest
    | none => enumMapDrop f (i + 1) rest

/-- The `result` list built by `/elements/links`: the raw anchor list is
truncated to 100 first (`links[:100]`), the index is the position in that
truncated raw list, and the href filter runs inside the loop. -/
def links_result (links : List Element) : List JVal :=
  enumMapDrop linkEntry 0 (links.take 100)

/-- `GET /elements/links`. -/
def get_links (env : Env) (st : Option Browser) : HResult :=
  match get_browser env st with
  | .error e => .ok st [] ⟨500, errBody e.msg⟩
  | .ok (b, st') =>
    match b.find_elements .TAG_NAME "a" with
    | .error e => .ok st' [] ⟨500, errBody e.msg⟩
    | .ok links =>
      let result := links_result links
      .ok st' [] ⟨200, .obj [("status", .str "success"),
        ("count", .num result.length), ("links", .arr result)]⟩

/-- Loop body for an `input` element in `/elements/forms`; `idx` is
`len(result)` at the moment of the append. -/
def inputEntry (idx : Nat) (e : Element) : Option JVal :=
  match e.get_attribute "type" with
  | .error _ => none
  | .ok input_type =>
    match e.get_attribute "name" with
    | .error _ => none
    | .ok nm =>
      match e.get_attribute "id" with
      | .error _ => none
      | .ok idv =>
        match e.get_attribute "placeholder" with
        | .error _ => none
        | .ok placeholder =>
          match e.get_attribute "value" with
          | .error _ => none
          | .ok value =>
            match e.is_displayed with
            | .error _ => none
            | .ok visible =>
              some (.obj [("type", .str "input"), ("index", .num idx),
                ("input_type", optJ input_type), ("name", optJ nm),
                ("id", optJ idv), ("placeholder", optJ placeholder),
                ("value", optJ value), ("visible", .bool visible)])

/-- Loop body for a `textarea` element in `/elements/forms`. -/
def textareaEntry (idx : Nat) (e : Element) : Option JVal :=
  match e.get_attribute "name" with
  | .error _ => none
  | .ok nm =>
    match e.get_attribute "id" with
    | .error _ => none
    | .ok idv =>
      match e.get_attribute "placeholder" with
      | .error _ => none
      | .ok placeholder =>
        match e.text with
        | .error _ => none
        | .ok value =>
          match e.is_displayed with
          | .error _ => none
          | .ok visible =>
            some (.obj [("type", .str "textarea"), ("index", .num idx),
              ("name", optJ nm), ("id", optJ idv),
              ("placeholder", optJ placeholder), ("value", .str value),
              ("visible", .bool visible)])

/-- Loop body for a `select` element in `/elements/forms`. -/
def selectEntry (idx : Nat) (e : Element) : Option JVal :=
  match e.option_texts with
  | .error _ => none
  | .ok options =>
    match e.get_attribute "name" with
    | .error _ => none
    | .ok nm =>
      match e.get_attribute "id" with
      | .error _ => none
      | .ok idv =>
        match e.is_displayed with
        | .error _ => none
        | .ok visible =>
          some (.obj [("type", .str "select"), ("index", .num idx),
            ("name", optJ nm), ("id", optJ idv),
            ("options", .arr (options.map JVal.str)),
            ("visible", .bool visible)])

/-- A `/elements/forms` category loop: each appended entry's `index` is
`len(result)` at append time, and dropped elements do not advance it. -/
def appendLoop (f : Nat → Element → Option JVal) :
    List Element → List JVal → List JVal
  | [], acc => acc
  | e :: rest, acc =>
    match f acc.length e with
    | some x => appendLoop f rest (acc ++ [x])
    | none => appendLoop f rest acc

/-- The `result` list built by `/elements/forms`: all inputs, then all
textareas, then all selects. -/
def forms_result (inputs textareas selects : List Element) : List JVal :=
  appendLoop selectEntry selects
    (appendLoop textareaEntry textareas
      (appendLoop inputEntry inputs []))

/-- `GET /elements/forms`. -/
def get_forms (env : Env) (st : Option Browser) : HResult :=
  match get_browser env st with
  | .error e => .ok st [] ⟨500, errBody e.msg⟩
  | .ok (b, st') =>
    match b.find_elements .TAG_NAME "input" with
    | .error e => .ok st' [] ⟨500, errBody e.msg⟩
    | .ok inputs =>
      match b.find_elements .TAG_NAME "textarea" with
      | .error e => .ok st' [] ⟨500, errBody e.msg⟩
      | .ok textareas =>
        match b.find_elements .TAG_NAME "select" with
        | .error e => .ok st' [] ⟨500, errBody e.msg⟩
        | .ok selects =>
          let result := forms_result inputs textareas selects
          .ok st' [] ⟨200, .obj [("status", .str "success"),
            ("count", .num result.length), ("fields", .arr result)]⟩

/-- Loop body for `/elements/buttons`; `i` comes from `enumerate` over the
raw concatenated list, so a dropped element leaves a gap. -/
def buttonEntry (i : Nat) (e : Element) : Option JVal :=
  match e.text with
  | .error _ => none
  | .ok text =>
    match e.get_attribute "type" with
    | .error _ => none
    | .ok ty =>
      match e.get_attribute "id" with
      | .error _ => none
      | .ok idv =>
        match e.get_attribute "name" with
        | .error _ => none
        | .ok nm =>
          match e.is_displayed with
          | .error _ => none
          | .ok visible =>
            some (.obj [("index", .num i), ("text", .str text.trim),
              ("type", optJ ty), ("id", optJ idv), ("name", optJ nm),
              ("visible", .bool visible)])

/-- The `result` list built by `/elements/buttons` over
`buttons + submit_inputs`. -/
def buttons_result (buttons submit_inputs : List Element) : List JVal :=
  enumMapDrop buttonEntry 0 (buttons ++ submit_inputs)

/-- `GET /elements/buttons`. -/
def get_buttons (env : Env) (st : Option Browser) : HResult :=
  match get_browser env st with
  | .error e => .ok st [] ⟨500, errBody e.msg⟩
  | .ok (b, st') =>
    match b.find_elements .TAG_NAME "button" with
    | .error e => .ok st' [] ⟨500, errBody e.msg⟩
    | .ok buttons =>
      match b.find_elements .CSS_SELECTOR "input[type=\"submit\"]" with
      | .error e => .ok st' [] ⟨500, errBody e.msg⟩
      | .ok submit_inputs =>
        let result := buttons_result buttons submit_inputs
        .ok st' [] ⟨200, .obj [("status", .str "success"),
          ("count", .num result.length), ("buttons", .arr result)]⟩

/-- The `by_map` dict of the `/click` handler: all eight selector kinds. -/
def click_by_map : List (String × By) :=
  [("css", .CSS_SELECTOR), ("xpath", .XPATH), ("id", .ID), ("name", .NAME),
   ("link_text", .LINK_TEXT), ("partial_link_text", .PARTIAL_LINK_TEXT),
   ("tag", .TAG_NAME), ("class", .CLASS_NAME)]

/-- The `by_map` dict of the `/fill` handler: only four selector kinds. -/
def fill_by_map : List (String × By) :=
  [("css", .CSS_SELECTOR), ("xpath", .XPATH), ("id", .ID), ("name", .NAME)]

/-- `by_map.get(selector_type, By.CSS_SELECTOR)`: a non-string or unknown
kind falls back to the default. -/
def by_map_get (m : List (String × By)) (k : JVal) (dflt : By) : By :=
  match k with
  | .str s => (m.lookup s).getD dflt
  | _ => dflt

/-- The `except NoSuchElementException` / `except Exception` ladder shared
by `/click` and `/fill`. -/
def catchClause (e : PyExc) : HttpResp :=
  match e with
  | .noSuchElement _ => ⟨404, errBody "Element not found"⟩
  | _ => ⟨500, errBody e.msg⟩

/-- `POST /click?wait=`: body parsing before the `try`; then resolution via
`click_by_map`, the click, the sleep, and the `current_url` read, under the
`NoSuchElementException`-then-`Exception` ladder. -/
def click (env : Env) (st : Option Browser) (body : JVal) (w : Option ℚ) :
    HResult :=
  match py_get body "selector" .null with
  | .error e => .exc st e
  | .ok selector =>
    match py_get body "type" (.str "css") with
    | .error e => .exc st e
    | .ok selector_type =>
      let wait := w.getD 1
      if pyTruthy selector then
        match get_browser env st with
        | .error e => .ok st [] (catchClause e)
        | .ok (b, st') =>
          match b.find_element (by_map_get click_by_map selector_type .CSS_SELECTOR) selector with
          | .error e => .ok st' [] (catchClause e)
          | .ok element =>
            match element.click with
            | .error e => .ok st' [] (catchClause e)
            | .ok _ =>
              match b.current_url with
              | .error e => .ok st' [wait] (catchClause e)
              | .ok current_url =>
                .ok st' [wait] ⟨200, .obj [("status", .str "success"),
                  ("message", .str "Element clicked"),
                  ("current_url", .str current_url)]⟩
      else .ok st [] ⟨400, errBody "Selector required"⟩

/-- `POST /fill?wait=`: same shape as `/click` but resolving through
`fill_by_map`, clearing first when `clear` is truthy, then `send_keys`. -/
def fill (env : Env) (st : Option Browser) (body : JVal) (w : Option ℚ) :
    HResult :=
  match py_get body "selector" .null with
  | .error e => .exc st e
  | .ok selector =>
    match py_get body "type" (.str "css") with
    | .error e => .exc st e
    | .ok selector_type =>
      match py_get body "value" (.str "") with
      | .error e => .exc st e
      | .ok value =>
        match py_get body "clear" (.bool true) with
        | .error e => .exc st e
        | .ok clear_first =>
          let wait := w.getD 0.5
          if pyTruthy selector then
            match get_browser env st with
            | .error e => .ok st [] (catchClause e)
            | .ok (b, st') =>
              match b.find_element (by_map_get fill_by_map selector_type .CSS_SELECTOR) selector with
              | .error e => .ok st' [] (catchClause e)
              | .ok element =>
                match (if pyTruthy clear_first then element.clear else .ok ()) with
                | .error e => .ok st' [] (catchClause e)
                | .ok _ =>
                  match element.send_keys value with
                  | .error e => .ok st' [] (catchClause e)
                  | .ok _ =>
                    .ok st' [wait] ⟨200, .obj [("status", .str "success"),
                      ("message", .str "Field filled")]⟩
          else .ok st [] ⟨400, errBody "Selector required"⟩

/-- `POST /execute`: run a script, pass its result through. -/
def execute_script (env : Env) (st : Option Browser) (body : JVal) : HResult :=
  match py_get body "script" .null with
  | .error e => .exc st e
  | .ok script =>
    if pyTruthy script then
      match get_browser env st with
      | .error e => .ok st [] ⟨500, errBody e.msg⟩
      | .ok (b, st') =>
        match b.execute_script script with
        | .error e => .ok st' [] ⟨500, errBody e.msg⟩
        | .ok result =>
          .ok st' [] ⟨200, .obj [("status", .str "success"), ("result", result)]⟩
    else .ok st [] ⟨400, errBody "Script required"⟩

/-- `POST /back?wait=`. -/
def go_back (env : Env) (st : Option Browser) (w : Option ℚ) : HResult :=
  let wait := w.getD 1
  match get_browser env st with
  | .error e => .ok st [] ⟨500, errBody e.msg⟩
  | .ok (b, st') =>
    match b.back with
    | .error e => .ok st' [] ⟨500, errBody e.msg⟩
    | .ok _ =>
      match b.current_url with
      | .error e => .ok st' [wait] ⟨500, errBody e.msg⟩
      | .ok current_url =>
        .ok st' [wait] ⟨200, .obj [("status", .str "success"),
          ("url", .str current_url)]⟩

/-- `POST /forward?wait=`. -/
def go_forward (env : Env) (st : Option Browser) (w : Option ℚ) : HResult :=
  let wait := w.getD 1
  match get_browser env st with
  | .error e => .ok st [] ⟨500, errBody e.msg⟩
  | .ok (b, st') =>
    match b.forward with
    | .error e => .ok st' [] ⟨500, errBody e.msg⟩
    | .ok _ =>
      match b.current_url with
      | .error e => .ok st' [wait] ⟨500, errBody e.msg⟩
      | .ok current_url =>
        .ok st' [wait] ⟨200, .obj [("status", .str "success"),
          ("url", .str current_url)]⟩

/-- `POST /refresh?wait=`. -/
def refresh (env : Env) (st : Option Browser) (w : Option ℚ) : HResult :=
  let wait := w.getD 2
  match get_browser env st with
  | .error e => .ok st [] ⟨500, errBody e.msg⟩
  | .ok (b, st') =>
    match b.refresh with
    | .error e => .ok st' [] ⟨500, errBody e.msg⟩
    | .ok _ =>
      match b.current_url with
      | .error e => .ok st' [wait] ⟨500, errBody e.msg⟩
      | .ok current_url =>
        .ok st' [wait] ⟨200, .obj [("status", .str "success"),
          ("url", .str current_url)]⟩

/-- Whether a body's `status` field is the string `s`. -/
def statusIs (b : JVal) (s : String) : Bool :=
  match jfield b "status" with
  | some (.str t) => t == s
  | _ => false

/-- Whether a body carries a `message` string. -/
def hasMessageStr (b : JVal) : Bool :=
  match jfield b "message" with
  | some (.str _) => true
  | _ => false

/-- The uniform envelope discipline of every operation except `/status`:
HTTP 200 responses say `status: 'success'`, everything else says
`status: 'error'` and carries a `message` string. An escaped exception is
outside the envelope contract. -/
def envelopeOK : HResult → Bool
  | .exc _ _ => true
  | .ok _ _ r =>
    if r.code == 200 then statusIs r.body "success"
    else statusIs r.body "error" && hasMessageStr r.body

/-- The `/status` envelope: its three outcome bodies say `stopped`,
`running`, or `error` with a `message`. -/
def statusEnvelopeOK : HResult → Bool
  | .exc _ _ => true
  | .ok _ _ r =>
    statusIs r.body "stopped" || statusIs r.body "running" ||
      (statusIs r.body "error" && hasMessageStr r.body)

/-- The `index` number an element-listing entry carries (0 otherwise);
an observation used to compare listing indices against positions. -/
def idxNat (x : JVal) : Nat :=
  match jfield x "index" with
  | some (.num n) => n
  | _ => 0

/-- The indices carried by a listing are exactly `0..n-1` in order (the
dense-index property claim C4 states for `list_form_fields`). -/
def idxOK (l : List JVal) : Prop :=
  l.map (fun x => jfield x "index") =
    (List.range l.length).map (fun i => some (.num i))

/-- Whether an anchor element would pass the `if href:` filter, reading its
attribute once (used only by the claim-side model below). -/
def hrefTruthy (l : Element) : Bool :=
  match l.get_attribute "href" with
  | .ok o => truthyOptStr o
  | .error _ => false

/-- The list `list_links` would return under claim C2's reading of the
spec: keep only anchors with a non-empty destination first, truncate that
filtered sequence to 100, and index entries by their position in the
filtered list. Compared against `links_result`, which is translated from
the code. -/
def links_result_claim (links : List Element) : List JVal :=
  enumMapDrop linkEntry 0 ((links.filter hrefTruthy).take 100)

/-- A well-behaved element with no attributes set. -/
def baseElement : Element :=
  { get_attribute := fun _ => .ok none
    text := .ok ""
    is_displayed := .ok true
    click := .ok ()
    clear := .ok ()
    send_keys := fun _ => .ok ()
    option_texts := .ok [] }

/-- An anchor with no `href` attribute. -/
def linkNoHref : Element :=
  { baseElement with text := .ok "x" }

/-- An anchor with `href="https://a.example"` and text `A`. -/
def linkWithHref : Element :=
  { baseElement with
    get_attribute := fun a => if a == "href" then .ok (some "https://a.example") else .ok none
    text := .ok "A" }

/-- A button whose `text` read succeeds. -/
def goodButton : Element :=
  { baseElement with text := .ok "Go" }

/-- A button whose `text` read raises, so its listing entry is dropped. -/
def badButton : Element :=
  { baseElement with text := .error (.webDriver "stale element") }

/-- A healthy driver handle: every capability succeeds (and no element
matches any selector). -/
def baseBrowser : Browser :=
  { current_url := .ok "about:blank"
    title := .ok ""
    get_window_size := .ok (.obj [("width", .num 1920), ("height", .num 1080)])
    quit := .ok ()
    get := fun _ => .ok ()
    back := .ok ()
    forward := .ok ()
    refresh := .ok ()
    get_screenshot_as_png := .ok []
    execute_script := fun _ => .ok .null
    find_elements := fun _ _ => .ok []
    find_element := fun _ _ => .error (.noSuchElement "no such element") }

/-- A handle whose liveness reads raise a communication fault. -/
def deadBrowser : Browser :=
  { baseBrowser with current_url := .error (.webDriver "connection refused") }

/-- A handle whose `quit()` raises a communication fault. -/
def quitFailBrowser : Browser :=
  { baseBrowser with quit := .error (.webDriver "connection refused") }

/-- A handle under which every selector resolves to an element that accepts
clicks, clears and keys. -/
def interactBrowser : Browser :=
  { baseBrowser with find_element := fun _ _ => .ok baseElement }

/-- An environment whose browser launch succeeds. -/
def demoEnv : Env := { newBrowser := .ok baseBrowser }

/-- A handle whose element resolution raises a fault that is not
`NoSuchElementException`. -/
def faultBrowser : Browser :=
  { baseBrowser with find_element := fun _ _ => .error (.otherExc "boom") }

/-- An element whose click capability raises. -/
def clickFaultElement : Element :=
  { baseElement with click := .error (.otherExc "not clickable") }

/-- A handle resolving every selector to `clickFaultElement`. -/
def clickFaultBrowser : Browser :=
  { baseBrowser with find_element := fun _ _ => .ok clickFaultElement }

/-! ## Helper lemmas about the listing loops -/

theorem mem_enumMapDrop {f : Nat → Element → Option JVal} {x : JVal} :
    ∀ {n : Nat} {l : List Element}, x ∈ enumMapDrop f n l →
      ∃ i e, l.get? i = some e ∧ f (n + i) e = some x := by
  intro n l
  induction l generalizing n with
  | nil => intro h; simp [enumMapDrop] at h
  | cons e rest ih =>
    intro h
    simp only [enumMapDrop] at h
    cases hfe : f n e with
    | some y =>
      rw [hfe] at h
      rcases List.mem_cons.mp h with rfl | hmem
      · exact ⟨0, e, rfl, hfe⟩
      · obtain ⟨i, e', hget, hfx⟩ := ih hmem
        refine ⟨i + 1, e', hget, ?_⟩
        have : n + (i + 1) = n + 1 + i := by omega
        rw [this]; exact hfx
    | none =>
      rw [hfe] at h
      obtain ⟨i, e', hget, hfx⟩ := ih h
      refine ⟨i + 1, e', hget, ?_⟩
      have : n + (i + 1) = n + 1 + i := by omega
      rw [this]; exact hfx

theorem length_enumMapDrop_le (f : Nat → Element → Option JVal) :
    ∀ (n : Nat) (l : List Element), (enumMapDrop f n l).length ≤ l.length := by
  intro n l
  induction l generalizing n with
  | nil => simp [enumMapDrop]
  | cons e rest ih =>
    simp only [enumMapDrop]
    cases f n e with
    | some y => simpa using Nat.succ_le_succ (ih (n + 1))
    | none => exact Nat.le_succ_of_le (ih (n + 1))

theorem linkEntry_fields {i : Nat} {e : Element} {x : JVal}
    (h : linkEntry i e = some x) :
    jfield x "index" = some (.num i) ∧
      ∃ hs, jfield x "href" = some (.str hs) ∧ hs ≠ "" := by
  unfold linkEntry at h
  repeat' split at h
  any_goals exact Option.noConfusion h
  injection h with h
  subst h
  refine ⟨rfl, _, rfl, ?_⟩
  simp_all

theorem buttonEntry_index {i : Nat} {e : Element} {x : JVal}
    (h : buttonEntry i e = some x) :
    jfield x "index" = some (.num i) := by
  unfold buttonEntry at h
  repeat' split at h
  any_goals exact Option.noConfusion h
  injection h with h
  subst h
  rfl

theorem inputEntry_fields {i : Nat} {e : Element} {x : JVal}
    (h : inputEntry i e = some x) :
    jfield x "type" = some (.str "input") ∧ jfield x "index" = some (.num i) := by
  unfold inputEntry at h
  repeat' split at h
  any_goals exact Option.noConfusion h
  injection h with h
  subst h
  exact ⟨rfl, rfl⟩

theorem textareaEntry_fields {i : Nat} {e : Element} {x : JVal}
    (h : textareaEntry i e = some x) :
    jfield x "type" = some (.str "textarea") ∧ jfield x "index" = some (.num i) := by
  unfold textareaEntry at h
  repeat' split at h
  any_goals exact Option.noConfusion h
  injection h with h
  subst h
  exact ⟨rfl, rfl⟩

theorem selectEntry_fields {i : Nat} {e : Element} {x : JVal}
    (h : selectEntry i e = some x) :
    jfield x "type" = some (.str "select") ∧ jfield x "index" = some (.num i) := by
  unfold selectEntry at h
  repeat' split at h
  any_goals exact Option.noConfusion h
  injection h with h
  subst h
  exact ⟨rfl, rfl⟩

theorem appendLoop_split (f : Nat → Element → Option JVal) :
    ∀ (elems : List Element) (acc : List JVal),
      ∃ t, appendLoop f elems acc = acc ++ t ∧ ∀ x ∈ t, ∃ i e, f i e = some x := by
  intro elems
  induction elems with
  | nil => exact fun acc => ⟨[], by simp [appendLoop]⟩
  | cons e rest ih =>
    intro acc
    simp only [appendLoop]
    cases hfe : f acc.length e with
    | some x =>
      obtain ⟨t, ht, hmem⟩ := ih (acc ++ [x])
      refine ⟨x :: t, ?_, ?_⟩
      · simp [ht]
      · intro y hy
        rcases List.mem_cons.mp hy with rfl | hy
        · exact ⟨acc.length, e, hfe⟩
        · exact hmem y hy
    | none => exact ih acc

theorem appendLoop_idxOK (f : Nat → Element → Option JVal)
    (hf : ∀ i e x, f i e = some x → jfield x "index" = some (.num i)) :
    ∀ (elems : List Element) (acc : List JVal),
      idxOK acc → idxOK (appendLoop f elems acc) := by
  intro elems
  induction elems with
  | nil => intro acc h; simpa [appendLoop] using h
  | cons e rest ih =>
    intro acc hacc
    simp only [appendLoop]
    cases hfe : f acc.length e with
    | some x =>
      apply ih
      unfold idxOK at hacc ⊢
      simp only [List.map_append, List.length_append, List.map_cons,
        List.map_nil, List.length_cons, List.length_nil]
      rw [List.range_succ, List.map_append, hacc, hf acc.length e x hfe]
      simp
    | none => exact ih acc hacc

/-! ## The claims -/

/-- C2, counterexample: on a page whose first anchor has no `href` and whose
second anchor has `href="https://a.example"`, `list_links` returns a single
entry carrying `index = 1` (its position in the raw anchor list), while the
claim — filter first, then index by position in the filtered list, as
`links_result_claim` renders it — demands `index = 0` for that sole entry.
So the claim is false on the code. -/
theorem links_index_raw_counterexample :
    (links_result [linkNoHref, linkWithHref]).map idxNat = [1] ∧
      (links_result_claim [linkNoHref, linkWithHref]).map idxNat = [0] ∧
      ([1] : List Nat) ≠ [0] :=
  ⟨rfl, rfl, by decide⟩

/-- C2, amended: `list_links` truncates the raw anchor list to its first 100
elements and then filters inside the loop, so each returned entry's
zero-based `index` equals its position in the raw (truncated) anchor list —
the element at that raw position produces exactly this entry — not its
position in the filtered list. -/
theorem links_entries_indexed_by_raw_position (links : List Element) (x : JVal)
    (hx : x ∈ links_result links) :
    ∃ i e, (links.take 100).get? i = some e ∧ linkEntry i e = some x ∧
      jfield x "index" = some (.num i) := by
  obtain ⟨i, e, hget, hfe⟩ := mem_enumMapDrop hx
  rw [Nat.zero_add] at hfe
  exact ⟨i, e, hget, hfe, (linkEntry_fields hfe).1⟩

/-- Witness for the amended C2 theorem on the two-anchor page: the sole
returned entry comes from raw position 1 and carries `index = 1`. -/
theorem links_entries_indexed_by_raw_position_witness :
    ∃ i e, ([linkNoHref, linkWithHref].take 100).get? i = some e ∧
      linkEntry i e = some (JVal.obj [("index", .num 1),
        ("href", .str "https://a.example"), ("text", .str "A".trim),
        ("visible", .bool true)]) ∧
      jfield (JVal.obj [("index", .num 1), ("href", .str "https://a.example"),
        ("text", .str "A".trim), ("visible", .bool true)]) "index" =
        some (.num i) :=
  links_entries_indexed_by_raw_position [linkNoHref, linkWithHref] _
    (List.Mem.head _)

/-- C3: `list_links` never returns more than 100 entries, every returned
entry carries a non-empty `href`, and at the handler level a 200 response's
`links` array has at most 100 elements. -/
theorem links_capped_and_nonempty_href (env : Env) (st : Option Browser)
    (links : List Element) :
    (links_result links).length ≤ 100 ∧
      (∀ x ∈ links_result links,
        ∃ hs, jfield x "href" = some (.str hs) ∧ hs ≠ "") ∧
      ((get_links env st).respCode = some 200 →
        ∃ l, (get_links env st).field "links" = some (.arr l) ∧
          l.length ≤ 100) := by
  have cap : ∀ ls : List Element, (links_result ls).length ≤ 100 := by
    intro ls
    calc (links_result ls).length ≤ (ls.take 100).length :=
          length_enumMapDrop_le _ 0 _
      _ ≤ 100 := by rw [List.length_take]; exact min_le_left _ _
  refine ⟨cap links, ?_, ?_⟩
  · intro x hx
    obtain ⟨i, e, hget, hfe⟩ := mem_enumMapDrop hx
    exact (linkEntry_fields hfe).2
  · unfold get_links
    split
    · intro h; exact absurd h (by simp [HResult.respCode])
    split
    · intro h; exact absurd h (by simp [HResult.respCode])
    intro _
    exact ⟨_, rfl, cap _⟩

/-- C4: `list_form_fields` returns the surviving input entries, then the
surviving textarea entries, then the surviving select entries, in that
order, and the `index` values over the concatenated output are exactly
`0..n-1` (dense, not restarting per category), even when elements are
dropped by per-element faults. -/
theorem forms_blocks_and_dense_indices (inputs textareas selects : List Element) :
    (∃ a b c, forms_result inputs textareas selects = a ++ b ++ c ∧
        (∀ x ∈ a, jfield x "type" = some (.str "input")) ∧
        (∀ x ∈ b, jfield x "type" = some (.str "textarea")) ∧
        (∀ x ∈ c, jfield x "type" = some (.str "select"))) ∧
      idxOK (forms_result inputs textareas selects) := by
  constructor
  · obtain ⟨t1, h1, m1⟩ := appendLoop_split inputEntry inputs []
    obtain ⟨t2, h2, m2⟩ := appendLoop_split textareaEntry textareas
      (appendLoop inputEntry inputs [])
    obtain ⟨t3, h3, m3⟩ := appendLoop_split selectEntry selects
      (appendLoop textareaEntry textareas (appendLoop inputEntry inputs []))
    refine ⟨t1, t2, t3, ?_, ?_, ?_, ?_⟩
    · unfold forms_result
      rw [h3, h2, h1]
      simp
    · intro x hx
      obtain ⟨i, e, hfe⟩ := m1 x hx
      exact (inputEntry_fields hfe).1
    · intro x hx
      obtain ⟨i, e, hfe⟩ := m2 x hx
      exact (textareaEntry_fields hfe).1
    · intro x hx
      obtain ⟨i, e, hfe⟩ := m3 x hx
      exact (selectEntry_fields hfe).1
  · unfold forms_result
    apply appendLoop_idxOK _ (fun i e x h => (selectEntry_fields h).2)
    apply appendLoop_idxOK _ (fun i e x h => (textareaEntry_fields h).2)
    apply appendLoop_idxOK _ (fun i e x h => (inputEntry_fields h).2)
    simp [idxOK]

/-- C10: each `list_buttons` entry's `index` is the element's position in
the raw concatenated `buttons + submit_inputs` list, so when an element is
dropped by a per-element fault its index is skipped: on
`[goodButton, badButton, goodButton]` the returned indices are `[0, 2]`,
with a gap — not dense like `list_form_fields`. -/
theorem buttons_raw_indices_with_gaps (btns submits : List Element) :
    (∀ x ∈ buttons_result btns submits,
        ∃ i e, (btns ++ submits).get? i = some e ∧ buttonEntry i e = some x ∧
          jfield x "index" = some (.num i)) ∧
      (buttons_result [goodButton, badButton, goodButton] []).map idxNat = [0, 2] := by
  constructor
  · intro x hx
    obtain ⟨i, e, hget, hfe⟩ := mem_enumMapDrop hx
    rw [Nat.zero_add] at hfe
    exact ⟨i, e, hget, hfe, buttonEntry_index hfe⟩
  · rfl

/-! ## Envelope lemmas for each operation (claim C1) -/

theorem envelopeOK_start (env : Env) (st : Option Browser) :
    envelopeOK (start env st) = true := by
  simp only [start]
  repeat' split
  all_goals rfl

theorem envelopeOK_stop (st : Option Browser) :
    envelopeOK (stop st) = true := by
  simp only [stop]
  repeat' split
  all_goals rfl

theorem envelopeOK_goto (env : Env) (st : Option Browser) (body : JVal)
    (w : Option ℚ) : envelopeOK (goto env st body w) = true := by
  simp only [goto, py_get]
  repeat' split
  all_goals rfl

theorem envelopeOK_screenshot (env : Env) (st : Option Browser) :
    envelopeOK (screenshot env st) = true := by
  simp only [screenshot]
  repeat' split
  all_goals rfl

theorem envelopeOK_get_links (env : Env) (st : Option Browser) :
    envelopeOK (get_links env st) = true := by
  simp only [get_links]
  repeat' split
  all_goals rfl

theorem envelopeOK_get_forms (env : Env) (st : Option Browser) :
    envelopeOK (get_forms env st) = true := by
  simp only [get_forms]
  repeat' split
  all_goals rfl

theorem envelopeOK_get_buttons (env : Env) (st : Option Browser) :
    envelopeOK (get_buttons env st) = true := by
  simp only [get_buttons]
  repeat' split
  all_goals rfl

theorem envelopeOK_click (env : Env) (st : Option Browser) (body : JVal)
    (w : Option ℚ) : envelopeOK (click env st body w) = true := by
  simp only [click, py_get, catchClause]
  repeat' split
  all_goals rfl

theorem envelopeOK_fill (env : Env) (st : Option Browser) (body : JVal)
    (w : Option ℚ) : envelopeOK (fill env st body w) = true := by
  simp only [fill, py_get, catchClause]
  repeat' split
  all_goals rfl

theorem envelopeOK_execute_script (env : Env) (st : Option Browser)
    (body : JVal) : envelopeOK (execute_script env st body) = true := by
  simp only [execute_script, py_get]
  repeat' split
  all_goals rfl

theorem envelopeOK_go_back (env : Env) (st : Option Browser) (w : Option ℚ) :
    envelopeOK (go_back env st w) = true := by
  simp only [go_back]
  repeat' split
  all_goals rfl

theorem envelopeOK_go_forward (env : Env) (st : Option Browser) (w : Option ℚ) :
    envelopeOK (go_forward env st w) = true := by
  simp only [go_forward]
  repeat' split
  all_goals rfl

theorem envelopeOK_refresh (env : Env) (st : Option Browser) (w : Option ℚ) :
    envelopeOK (refresh env st w) = true := by
  simp only [refresh]
  repeat' split
  all_goals rfl

theorem statusEnvelopeOK_status (st : Option Browser) :
    statusEnvelopeOK (status st) = true := by
  simp only [status]
  repeat' split
  all_goals rfl

/-- C1, counterexample: the `/status` operation's no-session outcome is a
non-failure response (HTTP 200, no `message`) whose `status` field is
`"stopped"` — not `"success"` as the claim requires of every success
payload, `/status` included. -/
theorem status_stopped_counterexample :
    (status none).respCode = some 200 ∧
      (status none).field "status" = some (.str "stopped") ∧
      statusIs (JVal.obj [("status", .str "stopped"), ("browser", .null)])
        "success" = false :=
  ⟨rfl, rfl, rfl⟩

/-- C1, amended: every operation other than `/status` satisfies the
envelope discipline — a 200 response carries `status: "success"`, any
non-200 response carries `status: "error"` together with a `message`
string — while `/status` answers `stopped`, `running`, or `error` plus
`message` in its three outcomes, only the last of which follows the
error-envelope form. -/
theorem response_envelope_discipline (env : Env) (st : Option Browser)
    (body : JVal) (w : Option ℚ) :
    envelopeOK (start env st) = true ∧
      envelopeOK (stop st) = true ∧
      envelopeOK (goto env st body w) = true ∧
      envelopeOK (screenshot env st) = true ∧
      envelopeOK (get_links env st) = true ∧
      envelopeOK (get_forms env st) = true ∧
      envelopeOK (get_buttons env st) = true ∧
      envelopeOK (click env st body w) = true ∧
      envelopeOK (fill env st body w) = true ∧
      envelopeOK (execute_script env st body) = true ∧
      envelopeOK (go_back env st w) = true ∧
      envelopeOK (go_forward env st w) = true ∧
      envelopeOK (refresh env st w) = true ∧
      statusEnvelopeOK (status st) = true :=
  ⟨envelopeOK_start env st, envelopeOK_stop st, envelopeOK_goto env st body w,
    envelopeOK_screenshot env st, envelopeOK_get_links env st,
    envelopeOK_get_forms env st, envelopeOK_get_buttons env st,
    envelopeOK_click env st body w, envelopeOK_fill env st body w,
    envelopeOK_execute_script env st body, envelopeOK_go_back env st w,
    envelopeOK_go_forward env st w, envelopeOK_refresh env st w,
    statusEnvelopeOK_status st⟩

/-- C5, counterexample: for the selector kind `link_text`, `fill` resolves
through CSS (its `by_map` lacks the entry) while `click` resolves through
LINK_TEXT, so the two operations do not map the eight kinds to the same
resolution strategy. -/
theorem fill_click_selector_divergence :
    by_map_get fill_by_map (.str "link_text") .CSS_SELECTOR = .CSS_SELECTOR ∧
      by_map_get click_by_map (.str "link_text") .CSS_SELECTOR = .LINK_TEXT ∧
      By.CSS_SELECTOR ≠ By.LINK_TEXT :=
  ⟨rfl, rfl, by decide⟩

/-- C5, amended: `click` and `fill` agree on the four kinds `css`, `xpath`,
`id`, `name` and on every kind outside the eight-kind enumeration (both
fall back to CSS); `click` maps all eight kinds to their own strategies,
but `fill` resolves only the four kinds in its map and treats `link_text`,
`partial_link_text`, `tag` and `class` as CSS as well. -/
theorem selector_resolution_amended (s : String)
    (h : s ∉ ["css", "xpath", "id", "name", "link_text",
      "partial_link_text", "tag", "class"]) :
    by_map_get click_by_map (.str "css") .CSS_SELECTOR = .CSS_SELECTOR ∧
      by_map_get click_by_map (.str "xpath") .CSS_SELECTOR = .XPATH ∧
      by_map_get click_by_map (.str "id") .CSS_SELECTOR = .ID ∧
      by_map_get click_by_map (.str "name") .CSS_SELECTOR = .NAME ∧
      by_map_get click_by_map (.str "link_text") .CSS_SELECTOR = .LINK_TEXT ∧
      by_map_get click_by_map (.str "partial_link_text") .CSS_SELECTOR =
        .PARTIAL_LINK_TEXT ∧
      by_map_get click_by_map (.str "tag") .CSS_SELECTOR = .TAG_NAME ∧
      by_map_get click_by_map (.str "class") .CSS_SELECTOR = .CLASS_NAME ∧
      by_map_get fill_by_map (.str "css") .CSS_SELECTOR =
        by_map_get click_by_map (.str "css") .CSS_SELECTOR ∧
      by_map_get fill_by_map (.str "xpath") .CSS_SELECTOR =
        by_map_get click_by_map (.str "xpath") .CSS_SELECTOR ∧
      by_map_get fill_by_map (.str "id") .CSS_SELECTOR =
        by_map_get click_by_map (.str "id") .CSS_SELECTOR ∧
      by_map_get fill_by_map (.str "name") .CSS_SELECTOR =
        by_map_get click_by_map (.str "name") .CSS_SELECTOR ∧
      by_map_get fill_by_map (.str "link_text") .CSS_SELECTOR = .CSS_SELECTOR ∧
      by_map_get fill_by_map (.str "partial_link_text") .CSS_SELECTOR =
        .CSS_SELECTOR ∧
      by_map_get fill_by_map (.str "tag") .CSS_SELECTOR = .CSS_SELECTOR ∧
      by_map_get fill_by_map (.str "class") .CSS_SELECTOR = .CSS_SELECTOR ∧
      by_map_get click_by_map (.str s) .CSS_SELECTOR = .CSS_SELECTOR ∧
      by_map_get fill_by_map (.str s) .CSS_SELECTOR = .CSS_SELECTOR := by
  simp only [List.mem_cons, List.not_mem_nil, not_or, or_false] at h
  obtain ⟨h1, h2, h3, h4, h5, h6, h7, h8⟩ := h
  have e1 : (s == "css") = false := beq_eq_false_iff_ne.mpr h1
  have e2 : (s == "xpath") = false := beq_eq_false_iff_ne.mpr h2
  have e3 : (s == "id") = false := beq_eq_false_iff_ne.mpr h3
  have e4 : (s == "name") = false := beq_eq_false_iff_ne.mpr h4
  have e5 : (s == "link_text") = false := beq_eq_false_iff_ne.mpr h5
  have e6 : (s == "partial_link_text") = false := beq_eq_false_iff_ne.mpr h6
  have e7 : (s == "tag") = false := beq_eq_false_iff_ne.mpr h7
  have e8 : (s == "class") = false := beq_eq_false_iff_ne.mpr h8
  refine ⟨rfl, rfl, rfl, rfl, rfl, rfl, rfl, rfl, rfl, rfl, rfl, rfl, rfl,
    rfl, rfl, rfl, ?_, ?_⟩
  · simp [by_map_get, click_by_map, List.lookup, e1, e2, e3, e4, e5, e6, e7, e8]
  · simp [by_map_get, fill_by_map, List.lookup, e1, e2, e3, e4]

/-- Witness for the amended C5 theorem at the unknown kind `zzz`: both
operations fall back to CSS. -/
theorem selector_resolution_amended_witness :
    by_map_get click_by_map (.str "zzz") .CSS_SELECTOR = .CSS_SELECTOR ∧
      by_map_get fill_by_map (.str "zzz") .CSS_SELECTOR = .CSS_SELECTOR := by
  have h := selector_resolution_amended "zzz" (by decide)
  exact ⟨h.2.2.2.2.2.2.2.2.2.2.2.2.2.2.2.2.1,
    h.2.2.2.2.2.2.2.2.2.2.2.2.2.2.2.2.2⟩

/-- C6: with a non-empty selector, a `NoSuchElementException` from element
resolution makes `click` and `fill` answer 404 `Element not found`, while
any other fault during resolution or during the click action itself is
answered as a generic 500 failure carrying the fault's message. -/
theorem click_fill_not_found_vs_generic (env : Env)
    (b1 b2 b3 b4 b5 : Browser) (el5 : Element)
    (sel ty m1 m2 m3 m4 m5 : String) (w : Option ℚ)
    (hsel : sel ≠ "")
    (h1 : b1.find_element (by_map_get click_by_map (.str ty) .CSS_SELECTOR)
      (.str sel) = .error (.noSuchElement m1))
    (h2 : b2.find_element (by_map_get click_by_map (.str ty) .CSS_SELECTOR)
      (.str sel) = .error (.otherExc m2))
    (h3 : b3.find_element (by_map_get fill_by_map (.str ty) .CSS_SELECTOR)
      (.str sel) = .error (.noSuchElement m3))
    (h4 : b4.find_element (by_map_get fill_by_map (.str ty) .CSS_SELECTOR)
      (.str sel) = .error (.otherExc m4))
    (h5 : b5.find_element (by_map_get click_by_map (.str ty) .CSS_SELECTOR)
      (.str sel) = .ok el5)
    (h6 : el5.click = .error (.otherExc m5)) :
    click env (some b1) (.obj [("selector", .str sel), ("type", .str ty)]) w =
        .ok (some b1) [] ⟨404, errBody "Element not found"⟩ ∧
      click env (some b2) (.obj [("selector", .str sel), ("type", .str ty)]) w =
        .ok (some b2) [] ⟨500, errBody m2⟩ ∧
      fill env (some b3) (.obj [("selector", .str sel), ("type", .str ty)]) w =
        .ok (some b3) [] ⟨404, errBody "Element not found"⟩ ∧
      fill env (some b4) (.obj [("selector", .str sel), ("type", .str ty)]) w =
        .ok (some b4) [] ⟨500, errBody m4⟩ ∧
      click env (some b5) (.obj [("selector", .str sel), ("type", .str ty)]) w =
        .ok (some b5) [] ⟨500, errBody m5⟩ := by
  have hts : pyTruthy (.str sel) = true := by
    simp [pyTruthy, beq_eq_false_iff_ne.mpr hsel]
  refine ⟨?_, ?_, ?_, ?_, ?_⟩
  · simp [click, py_get, get_browser, catchClause, List.lookup, Option.getD, hts, h1]
  · simp [click, py_get, get_browser, catchClause, List.lookup, Option.getD, hts, h2, PyExc.msg]
  · simp [fill, py_get, get_browser, catchClause, List.lookup, Option.getD, hts, h3]
  · simp [fill, py_get, get_browser, catchClause, List.lookup, Option.getD, hts, h4, PyExc.msg]
  · simp [click, py_get, get_browser, catchClause, List.lookup, Option.getD, hts, h5, h6, PyExc.msg]

/-- Witness for C6 at concrete browsers: `baseBrowser` resolves nothing
(404), `faultBrowser` faults generically (500), `clickFaultBrowser`
resolves but the click itself faults (500). -/
theorem click_fill_not_found_vs_generic_witness :
    click demoEnv (some baseBrowser)
        (.obj [("selector", .str "#x"), ("type", .str "css")]) none =
        .ok (some baseBrowser) [] ⟨404, errBody "Element not found"⟩ ∧
      click demoEnv (some faultBrowser)
        (.obj [("selector", .str "#x"), ("type", .str "css")]) none =
        .ok (some faultBrowser) [] ⟨500, errBody "boom"⟩ ∧
      fill demoEnv (some baseBrowser)
        (.obj [("selector", .str "#x"), ("type", .str "css")]) none =
        .ok (some baseBrowser) [] ⟨404, errBody "Element not found"⟩ ∧
      fill demoEnv (some faultBrowser)
        (.obj [("selector", .str "#x"), ("type", .str "css")]) none =
        .ok (some faultBrowser) [] ⟨500, errBody "boom"⟩ ∧
      click demoEnv (some clickFaultBrowser)
        (.obj [("selector", .str "#x"), ("type", .str "css")]) none =
        .ok (some clickFaultBrowser) [] ⟨500, errBody "not clickable"⟩ :=
  click_fill_not_found_vs_generic demoEnv baseBrowser faultBrowser baseBrowser
    faultBrowser clickFaultBrowser clickFaultElement "#x" "css"
    "no such element" "boom" "no such element" "boom" "not clickable" none
    (by decide) rfl rfl rfl rfl rfl rfl

/-- C7: on their success paths, `goto`, `click`, `fill`, `back`, `forward`
and `refresh` each sleep exactly once, for the caller-supplied wait when one
is given and otherwise for their own defaults of 2, 1, 0.5, 1, 1 and 2
seconds respectively (`w.getD d` covers both cases). -/
theorem post_action_wait_defaults (env : Env) (b : Browser)
    (el1 el2 : Element) (u sel ty : String) (w : Option ℚ)
    (hu : u ≠ "") (hsel : sel ≠ "")
    (hget : b.get (.str u) = .ok ())
    (hback : b.back = .ok ())
    (hfwd : b.forward = .ok ())
    (hrefr : b.refresh = .ok ())
    (hfe1 : b.find_element (by_map_get click_by_map (.str ty) .CSS_SELECTOR)
      (.str sel) = .ok el1)
    (hclick : el1.click = .ok ())
    (hfe2 : b.find_element (by_map_get fill_by_map (.str ty) .CSS_SELECTOR)
      (.str sel) = .ok el2)
    (hclear : el2.clear = .ok ())
    (hkeys : el2.send_keys (.str "") = .ok ()) :
    (goto env (some b) (.obj [("url", .str u)]) w).sleeps = [w.getD 2] ∧
      (click env (some b) (.obj [("selector", .str sel), ("type", .str ty)])
        w).sleeps = [w.getD 1] ∧
      (fill env (some b) (.obj [("selector", .str sel), ("type", .str ty)])
        w).sleeps = [w.getD 0.5] ∧
      (go_back env (some b) w).sleeps = [w.getD 1] ∧
      (go_forward env (some b) w).sleeps = [w.getD 1] ∧
      (refresh env (some b) w).sleeps = [w.getD 2] := by
  have htu : pyTruthy (.str u) = true := by
    simp [pyTruthy, beq_eq_false_iff_ne.mpr hu]
  have hts : pyTruthy (.str sel) = true := by
    simp [pyTruthy, beq_eq_false_iff_ne.mpr hsel]
  refine ⟨?_, ?_, ?_, ?_, ?_, ?_⟩
  · cases hcu : b.current_url with
    | error e =>
      simp [goto, py_get, List.lookup, get_browser, HResult.sleeps,
        htu, hget, hcu]
    | ok cu =>
      cases ht : b.title with
      | error e2 =>
        simp [goto, py_get, List.lookup, get_browser, HResult.sleeps,
          htu, hget, hcu, ht]
      | ok t =>
        simp [goto, py_get, List.lookup, get_browser, HResult.sleeps,
          htu, hget, hcu, ht]
  · cases hcu : b.current_url with
    | error e =>
      simp [click, py_get, List.lookup, get_browser, HResult.sleeps,
        catchClause, hts, hfe1, hclick, hcu]
    | ok cu =>
      simp [click, py_get, List.lookup, get_browser, HResult.sleeps,
        hts, hfe1, hclick, hcu]
  · simp [fill, py_get, List.lookup, get_browser, HResult.sleeps,
      pyTruthy, hts, hsel, hfe2, hclear, hkeys]
  · cases hcu : b.current_url with
    | error e =>
      simp [go_back, get_browser, HResult.sleeps, hback, hcu]
    | ok cu =>
      simp [go_back, get_browser, HResult.sleeps, hback, hcu]
  · cases hcu : b.current_url with
    | error e =>
      simp [go_forward, get_browser, HResult.sleeps, hfwd, hcu]
    | ok cu =>
      simp [go_forward, get_browser, HResult.sleeps, hfwd, hcu]
  · cases hcu : b.current_url with
    | error e =>
      simp [refresh, get_browser, HResult.sleeps, hrefr, hcu]
    | ok cu =>
      simp [refresh, get_browser, HResult.sleeps, hrefr, hcu]

/-- Witness for C7 on a fully healthy browser with no caller-supplied wait:
all six operations sleep for their documented defaults. -/
theorem post_action_wait_defaults_witness :
    (goto demoEnv (some interactBrowser)
        (.obj [("url", .str "https://example.com")]) none).sleeps = [2] ∧
      (click demoEnv (some interactBrowser)
        (.obj [("selector", .str "#b"), ("type", .str "css")]) none).sleeps =
        [1] ∧
      (fill demoEnv (some interactBrowser)
        (.obj [("selector", .str "#b"), ("type", .str "css")]) none).sleeps =
        [0.5] ∧
      (go_back demoEnv (some interactBrowser) none).sleeps = [1] ∧
      (go_forward demoEnv (some interactBrowser) none).sleeps = [1] ∧
      (refresh demoEnv (some interactBrowser) none).sleeps = [2] :=
  post_action_wait_defaults demoEnv interactBrowser baseElement baseElement
    "https://example.com" "#b" "css" none (by decide) (by decide)
    rfl rfl rfl rfl rfl rfl rfl rfl rfl

/-- C8, counterexample: `stop` runs `browser.quit()` outside any `try`, so
a communication fault raised by `quit` escapes the handler (and leaves the
dead handle cached); and `goto` reads `data.get('url')` before its `try`,
so the request body `null` makes the attribute access escape the handler.
The claim that no fault propagates past any operation is therefore false. -/
theorem stop_goto_fault_propagation :
    stop (some quitFailBrowser) =
        .exc (some quitFailBrowser) (.webDriver "connection refused") ∧
      goto demoEnv (some baseBrowser) .null none =
        .exc (some baseBrowser) (.otherExc "AttributeError") :=
  ⟨rfl, rfl⟩

/-- C8, amended: once the request body parses as a dict, every operation
except `stop` catches each fault raised by a capability call and converts
it to a failure envelope (`status` catches only WebDriver faults, which is
what its reads raise); `stop` returns an envelope whenever `quit` does not
fault, but performs `quit` outside any `try`. -/
theorem fault_containment_amended (env : Env) (st : Option Browser)
    (b : Browser) (l : List (String × JVal)) (w : Option ℚ)
    (hq : b.quit = .ok ()) :
    (start env st).isExc = false ∧
      (goto env st (.obj l) w).isExc = false ∧
      (screenshot env st).isExc = false ∧
      (get_links env st).isExc = false ∧
      (get_forms env st).isExc = false ∧
      (get_buttons env st).isExc = false ∧
      (click env st (.obj l) w).isExc = false ∧
      (fill env st (.obj l) w).isExc = false ∧
      (execute_script env st (.obj l)).isExc = false ∧
      (go_back env st w).isExc = false ∧
      (go_forward env st w).isExc = false ∧
      (refresh env st w).isExc = false ∧
      (stop none).isExc = false ∧
      (stop (some b)).isExc = false := by
  refine ⟨?_, ?_, ?_, ?_, ?_, ?_, ?_, ?_, ?_, ?_, ?_, ?_, rfl, ?_⟩
  · simp only [start]; repeat' split
    all_goals rfl
  · simp only [goto, py_get]; repeat' split
    all_goals rfl
  · simp only [screenshot]; repeat' split
    all_goals rfl
  · simp only [get_links]; repeat' split
    all_goals rfl
  · simp only [get_forms]; repeat' split
    all_goals rfl
  · simp only [get_buttons]; repeat' split
    all_goals rfl
  · simp only [click, py_get]; repeat' split
    all_goals rfl
  · simp only [fill, py_get]; repeat' split
    all_goals rfl
  · simp only [execute_script, py_get]; repeat' split
    all_goals rfl
  · simp only [go_back]; repeat' split
    all_goals rfl
  · simp only [go_forward]; repeat' split
    all_goals rfl
  · simp only [refresh]; repeat' split
    all_goals rfl
  · simp [stop, hq, HResult.isExc]

/-- Witness for the amended C8 theorem at concrete inputs. -/
theorem fault_containment_amended_witness :
    (start demoEnv none).isExc = false ∧
      (goto demoEnv none (.obj []) none).isExc = false ∧
      (screenshot demoEnv none).isExc = false ∧
      (get_links demoEnv none).isExc = false ∧
      (get_forms demoEnv none).isExc = false ∧
      (get_buttons demoEnv none).isExc = false ∧
      (click demoEnv none (.obj []) none).isExc = false ∧
      (fill demoEnv none (.obj []) none).isExc = false ∧
      (execute_script demoEnv none (.obj [])).isExc = false ∧
      (go_back demoEnv none none).isExc = false ∧
      (go_forward demoEnv none none).isExc = false ∧
      (refresh demoEnv none none).isExc = false ∧
      (stop none).isExc = false ∧
      (stop (some baseBrowser)).isExc = false :=
  fault_containment_amended demoEnv none baseBrowser [] none rfl

/-- C9: when the `/status` liveness read raises a WebDriver communication
fault, the handler clears the cached handle and answers with the
dead-session body instead of propagating the fault, and the next
`get_browser()` on the cleared state returns exactly the environment's
freshly created handle — never the dead one. -/
theorem status_fault_invalidates_and_fresh_acquire (env : Env)
    (b nb : Browser) (e : PyExc)
    (hcu : b.current_url = .error e) (hwde : e.isWDE = true)
    (hnb : env.newBrowser = .ok nb) :
    status (some b) = .ok none [] ⟨200, .obj [("status", .str "error"),
        ("message", .str "Browser session died")]⟩ ∧
      get_browser env (status (some b)).state = .ok (nb, some nb) := by
  have h1 : status (some b) = .ok none [] ⟨200,
      .obj [("status", .str "error"),
        ("message", .str "Browser session died")]⟩ := by
    simp [status, hcu, hwde]
  refine ⟨h1, ?_⟩
  rw [h1]
  simp [get_browser, HResult.state, hnb]

/-- Witness for C9: a dead handle is replaced by the environment's fresh
`baseBrowser`. -/
theorem status_fault_invalidates_and_fresh_acquire_witness :
    status (some deadBrowser) = .ok none [] ⟨200,
        .obj [("status", .str "error"),
          ("message", .str "Browser session died")]⟩ ∧
      get_browser demoEnv (status (some deadBrowser)).state =
        .ok (baseBrowser, some baseBrowser) :=
  status_fault_invalidates_and_fresh_acquire demoEnv deadBrowser baseBrowser
    (.webDriver "connection refused") rfl rfl rfl
